import Mathlib

/-!
Verification of the spotifyd daemon's entry point (`src/main.rs`) and of its
orchestration core as described by the specification.

The first part embeds `main.rs` shallowly: `main` is modelled as a pure
function from the CLI configuration and the outcomes of its fallible calls
(config-file load, daemonization) to the ordered list of observable steps it
performs together with its `Result` value.  The second part models the
playback orchestration core (state machine, supervisor handle accounting and
event multiplexer), whose code is not part of the visible sources, from the
specification's transition table and contracts.
-/

/-- Log target selected by `main` (enum `LogTarget` in `main.rs`). -/
inductive LogTarget
  | Terminal
  | Syslog
deriving DecidableEq

/-- Log levels used by `main.rs` (the two `log::LevelFilter` values it selects). -/
inductive LevelFilter
  | Trace
  | Info
deriving DecidableEq

/-- CLI flags of `CliConfig` that `main` reads directly. -/
structure CliConfig where
  no_daemon : Bool
  verbose : Bool
deriving DecidableEq

/-- Outcomes of the fallible calls `main` makes: the config-file load and
`Daemonize::start`.  These are inputs of the model since they depend on the
environment. -/
structure MainEnv where
  configLoadResult : Except String Unit
  daemonizeResult : Except String Unit

/-- Observable steps of `main`, in program order. -/
inductive MainStep
  | setupLogger (target : LogTarget) (level : LevelFilter)
  | installErrorReporting
  | loadConfigFile
  | daemonize
  | logInfo (msg : String)
  | logError (msg : String)
  | installPanicHook
  | runReactor
deriving DecidableEq

/-- Log target computed by `main`: Syslog when running as a daemon
(`!no_daemon`), Terminal otherwise (`main.rs` lines 68-74). -/
def loggerTarget (cfg : CliConfig) : LogTarget :=
  if !cfg.no_daemon then LogTarget.Syslog else LogTarget.Terminal

/-- Log level computed by `main`: Trace when verbose, Info otherwise
(`main.rs` lines 75-79). -/
def loggerLevel (cfg : CliConfig) : LevelFilter :=
  if cfg.verbose then LevelFilter.Trace else LevelFilter.Info

/-- Steps `main` performs unconditionally before branching on the
config-file load outcome: logger setup, error-report install, config load. -/
def startupSteps (cfg : CliConfig) : List MainStep :=
  [MainStep.setupLogger (loggerTarget cfg) (loggerLevel cfg),
   MainStep.installErrorReporting,
   MainStep.loadConfigFile]

/-- Daemonization block of `main` (`main.rs` lines 99-112, unix path): the
`Daemonize::start` outcome is logged, an error does not abort. -/
def daemonBlock (env : MainEnv) : List MainStep :=
  [MainStep.logInfo "Daemonizing running instance", MainStep.daemonize] ++
    (match env.daemonizeResult with
     | Except.ok _ =>
         [MainStep.logInfo "Detached from shell, now running in background."]
     | Except.error e =>
         [MainStep.logError ("Something went wrong while daemonizing: " ++ e)])

/-- Shallow embedding of `fn main()` from `src/main.rs` (unix path): the
ordered trace of steps performed and the returned `Result`.  The `?` on the
config-file load aborts the function with the wrapped error; a daemonization
failure is only logged; the panic hook is installed and the reactor is
constructed and run last. -/
def mainRun (cfg : CliConfig) (env : MainEnv) : List MainStep × Except String Unit :=
  match env.configLoadResult with
  | Except.error e =>
      (startupSteps cfg, Except.error ("could not load the config file: " ++ e))
  | Except.ok _ =>
      (startupSteps cfg ++ (if !cfg.no_daemon then daemonBlock env else []) ++
        [MainStep.installPanicHook, MainStep.runReactor],
       Except.ok ())

/-- Payload of a Rust panic as the installed hook distinguishes it:
a `String`, a `&str`, or anything else. -/
inductive PanicPayload
  | ofString (s : String)
  | ofStr (s : String)
  | other
deriving DecidableEq

/-- Message logged by the panic hook installed in `main.rs` (lines 134-146). -/
def panicHookMessage (p : PanicPayload) : String :=
  "PANIC: Shutting down spotifyd. Error message: " ++
    match p with
    | PanicPayload.ofString s => s
    | PanicPayload.ofStr s => s
    | PanicPayload.other => "Unknown error type, can't produce message."

/-- C1: a failing config-file load is propagated by `?`: `main` returns the
wrapped error (non-zero process exit after the error is reported) and the
reactor is never run. -/
theorem config_load_failure_aborts (cfg : CliConfig) (env : MainEnv) (msg : String)
    (h : env.configLoadResult = Except.error msg) :
    (mainRun cfg env).2 = Except.error ("could not load the config file: " ++ msg) ∧
      MainStep.runReactor ∉ (mainRun cfg env).1 := by
  unfold mainRun
  rw [h]
  refine ⟨rfl, ?_⟩
  intro hmem
  simp [startupSteps] at hmem

/-- Witness for C1 at a concrete configuration and a concrete load error. -/
theorem config_load_failure_aborts_witness :
    (mainRun ⟨true, false⟩ ⟨Except.error "bad TOML", Except.ok ()⟩).2 =
        Except.error ("could not load the config file: " ++ "bad TOML") ∧
      MainStep.runReactor ∉ (mainRun ⟨true, false⟩ ⟨Except.error "bad TOML", Except.ok ()⟩).1 :=
  config_load_failure_aborts ⟨true, false⟩ ⟨Except.error "bad TOML", Except.ok ()⟩
    "bad TOML" rfl

/-- C8: the logger configuration is a pure function of the CLI flags
(`no_daemon = false` selects Syslog, otherwise Terminal; `verbose` selects
Trace, otherwise Info), and the logger-setup step is the very first step of
every trace, before the config-file load (the third step) and before any
daemonization step (daemonization is not among the first three steps). -/
theorem logger_setup_first (cfg : CliConfig) (env : MainEnv) :
    (mainRun cfg env).1.take 3 =
      [MainStep.setupLogger
          (if cfg.no_daemon then LogTarget.Terminal else LogTarget.Syslog)
          (if cfg.verbose then LevelFilter.Trace else LevelFilter.Info),
        MainStep.installErrorReporting,
        MainStep.loadConfigFile] := by
  obtain ⟨nd, vb⟩ := cfg
  cases hc : env.configLoadResult <;> cases nd <;>
    simp [mainRun, hc, startupSteps, loggerTarget, loggerLevel]

/-- C9: when daemonization fails, `main` logs the error and continues: the
reactor step is still in the trace and `main` returns `Ok`. -/
theorem daemonize_failure_continues (cfg : CliConfig) (env : MainEnv) (msg : String)
    (h1 : cfg.no_daemon = false) (h2 : env.configLoadResult = Except.ok ())
    (h3 : env.daemonizeResult = Except.error msg) :
    MainStep.logError ("Something went wrong while daemonizing: " ++ msg) ∈ (mainRun cfg env).1 ∧
      MainStep.runReactor ∈ (mainRun cfg env).1 ∧
      (mainRun cfg env).2 = Except.ok () := by
  unfold mainRun
  rw [h2]
  simp [h1, daemonBlock, h3]

/-- Witness for C9 at a concrete configuration and a concrete daemonization error. -/
theorem daemonize_failure_continues_witness :
    MainStep.logError ("Something went wrong while daemonizing: " ++ "no permission") ∈
        (mainRun ⟨false, true⟩ ⟨Except.ok (), Except.error "no permission"⟩).1 ∧
      MainStep.runReactor ∈
        (mainRun ⟨false, true⟩ ⟨Except.ok (), Except.error "no permission"⟩).1 ∧
      (mainRun ⟨false, true⟩ ⟨Except.ok (), Except.error "no permission"⟩).2 = Except.ok () :=
  daemonize_failure_continues ⟨false, true⟩ ⟨Except.ok (), Except.error "no permission"⟩
    "no permission" rfl rfl rfl

/-- C10: when startup succeeds, the panic hook is installed immediately before
the reactor is run (the last two steps of the trace), and the hook's log line
is the text "PANIC: Shutting down spotifyd" followed by the payload when it is
a String or a &str, and by the fixed fallback text for any other payload. -/
theorem panic_hook_before_reactor (cfg : CliConfig) (env : MainEnv) (s1 s2 : String)
    (h : env.configLoadResult = Except.ok ()) :
    (∃ pre, (mainRun cfg env).1 = pre ++ [MainStep.installPanicHook, MainStep.runReactor]) ∧
      panicHookMessage (PanicPayload.ofString s1) =
        "PANIC: Shutting down spotifyd" ++ (". Error message: " ++ s1) ∧
      panicHookMessage (PanicPayload.ofStr s2) =
        "PANIC: Shutting down spotifyd" ++ (". Error message: " ++ s2) ∧
      panicHookMessage PanicPayload.other =
        "PANIC: Shutting down spotifyd" ++
          (". Error message: " ++ "Unknown error type, can't produce message.") := by
  refine ⟨⟨startupSteps cfg ++ (if !cfg.no_daemon then daemonBlock env else []), ?_⟩,
    rfl, rfl, rfl⟩
  unfold mainRun
  rw [h]

/-- Witness for C10 at a concrete configuration and concrete payloads. -/
theorem panic_hook_before_reactor_witness :
    (∃ pre, (mainRun ⟨true, false⟩ ⟨Except.ok (), Except.ok ()⟩).1 =
        pre ++ [MainStep.installPanicHook, MainStep.runReactor]) ∧
      panicHookMessage (PanicPayload.ofString "boom") =
        "PANIC: Shutting down spotifyd" ++ (". Error message: " ++ "boom") ∧
      panicHookMessage (PanicPayload.ofStr "oops") =
        "PANIC: Shutting down spotifyd" ++ (". Error message: " ++ "oops") ∧
      panicHookMessage PanicPayload.other =
        "PANIC: Shutting down spotifyd" ++
          (". Error message: " ++ "Unknown error type, can't produce message.") :=
  panic_hook_before_reactor ⟨true, false⟩ ⟨Except.ok (), Except.ok ()⟩ "boom" "oops" rfl

/-- Modelled from the spec: `PlaybackState` (§3); the orchestration core's
source is not among the visible files. -/
inductive PlaybackState
  | Stopped
  | Loading
  | Playing
  | Paused
  | ShuttingDown
deriving DecidableEq

/-- Modelled from the spec: `TrackMetadata` (§3) — title, artist, album,
duration, unique identifier; duration in seconds. -/
structure TrackMetadata where
  title : String
  artist : String
  album : String
  duration : Nat
  trackId : Nat
deriving DecidableEq

/-- Modelled from the spec: the tagged events consumed by the state machine
(§4.1 transition table), from the remote session, the backend supervisor and
the control-surface bridge. -/
inductive Event
  | loadTrack (t : TrackMetadata)
  | backendReady
  | loadFailure
  | pause
  | play
  | nextTrack
  | prevTrack
  | backendExited
  | stop
  | seek (pos : Nat)
  | setVolume (v : Nat)
deriving DecidableEq

/-- Modelled from the spec: the side effects named in the §4.1 table. -/
inductive Effect
  | spawnBackend
  | startFeeding
  | reportError
  | suspendFeed
  | resumeFeed
  | teardownFeed
  | requestTrack
  | respawnBackend
  | resumeAtPosition (pos : Nat)
  | restartTrack
  | terminateBackend
  | flushBridge
  | forwardSeek (pos : Nat)
  | forwardVolumeToBackend (v : Nat)
  | log (msg : String)
deriving DecidableEq

/-- Modelled from the spec: the state owned by the state machine — the
playback state, the current track metadata, the volume level, whether a
backend process handle is live, and the last known playback position (§3). -/
structure SMState where
  playback : PlaybackState
  track : Option TrackMetadata
  volume : Nat
  hasBackendHandle : Bool
  lastPosition : Option Nat
deriving DecidableEq

/-- Initial state of the daemon: Stopped, no track, no backend handle. -/
def initialSM (v : Nat) : SMState :=
  { playback := PlaybackState.Stopped, track := none, volume := v, hasBackendHandle := false, lastPosition := none }

/-- Effective seek position: clamped to the current track's duration (§4.1:
"a malformed event (e.g., seek beyond track duration) is clamped"). -/
def effectiveSeek (s : SMState) (pos : Nat) : Nat :=
  match s.track with
  | some t => min pos t.duration
  | none => pos

/-- Modelled from the spec: `handle(event) -> (new_state, list_of_side_effects)`,
the §4.1 transition table, with the "ShuttingDown → Stopped" row applied
atomically and every unlisted (state, event-kind) pair a logged no-op. -/
def handle (s : SMState) (e : Event) : SMState × List Effect :=
  match s.playback, e with
  | PlaybackState.Stopped, Event.loadTrack t =>
      ({ s with playback := PlaybackState.Loading, track := some t, hasBackendHandle := true },
       [Effect.spawnBackend])
  | PlaybackState.Loading, Event.backendReady =>
      ({ s with playback := PlaybackState.Playing }, [Effect.startFeeding])
  | PlaybackState.Loading, Event.loadFailure =>
      ({ s with playback := PlaybackState.Stopped, track := none, hasBackendHandle := false },
       [Effect.reportError])
  | PlaybackState.Playing, Event.pause =>
      ({ s with playback := PlaybackState.Paused }, [Effect.suspendFeed])
  | PlaybackState.Paused, Event.play =>
      ({ s with playback := PlaybackState.Playing }, [Effect.resumeFeed])
  | PlaybackState.Playing, Event.nextTrack =>
      ({ s with playback := PlaybackState.Loading },
       [Effect.teardownFeed, Effect.requestTrack])
  | PlaybackState.Playing, Event.prevTrack =>
      ({ s with playback := PlaybackState.Loading },
       [Effect.teardownFeed, Effect.requestTrack])
  | PlaybackState.Paused, Event.nextTrack =>
      ({ s with playback := PlaybackState.Loading },
       [Effect.teardownFeed, Effect.requestTrack])
  | PlaybackState.Paused, Event.prevTrack =>
      ({ s with playback := PlaybackState.Loading },
       [Effect.teardownFeed, Effect.requestTrack])
  | PlaybackState.Playing, Event.backendExited =>
      ({ s with playback := PlaybackState.Loading, hasBackendHandle := true },
       Effect.respawnBackend ::
         (match s.lastPosition with
          | some p => [Effect.resumeAtPosition p]
          | none => [Effect.restartTrack]))
  | PlaybackState.Paused, Event.backendExited =>
      ({ s with playback := PlaybackState.Loading, hasBackendHandle := true },
       Effect.respawnBackend ::
         (match s.lastPosition with
          | some p => [Effect.resumeAtPosition p]
          | none => [Effect.restartTrack]))
  | PlaybackState.Loading, Event.stop =>
      ({ s with playback := PlaybackState.Stopped, track := none, hasBackendHandle := false },
       [Effect.terminateBackend, Effect.flushBridge])
  | PlaybackState.Playing, Event.stop =>
      ({ s with playback := PlaybackState.Stopped, track := none, hasBackendHandle := false },
       [Effect.terminateBackend, Effect.flushBridge])
  | PlaybackState.Paused, Event.stop =>
      ({ s with playback := PlaybackState.Stopped, track := none, hasBackendHandle := false },
       [Effect.terminateBackend, Effect.flushBridge])
  | PlaybackState.Playing, Event.seek pos =>
      (s, [Effect.forwardSeek (effectiveSeek s pos)])
  | PlaybackState.Paused, Event.seek pos =>
      (s, [Effect.forwardSeek (effectiveSeek s pos)])
  | PlaybackState.Playing, Event.setVolume v =>
      ({ s with volume := v }, [Effect.forwardVolumeToBackend v])
  | PlaybackState.Paused, Event.setVolume v =>
      ({ s with volume := v }, [Effect.forwardVolumeToBackend v])
  | _, _ => (s, [Effect.log "ignoring event: no transition from current state"])

/-- Decides whether a (state, event-kind) pair is listed in the §4.1 table. -/
def isListed : PlaybackState → Event → Bool
  | PlaybackState.Stopped, Event.loadTrack _ => true
  | PlaybackState.Loading, Event.backendReady => true
  | PlaybackState.Loading, Event.loadFailure => true
  | PlaybackState.Loading, Event.stop => true
  | PlaybackState.Playing, Event.pause => true
  | PlaybackState.Paused, Event.play => true
  | PlaybackState.Playing, Event.nextTrack => true
  | PlaybackState.Playing, Event.prevTrack => true
  | PlaybackState.Paused, Event.nextTrack => true
  | PlaybackState.Paused, Event.prevTrack => true
  | PlaybackState.Playing, Event.backendExited => true
  | PlaybackState.Paused, Event.backendExited => true
  | PlaybackState.Playing, Event.stop => true
  | PlaybackState.Paused, Event.stop => true
  | PlaybackState.Playing, Event.seek _ => true
  | PlaybackState.Paused, Event.seek _ => true
  | PlaybackState.Playing, Event.setVolume _ => true
  | PlaybackState.Paused, Event.setVolume _ => true
  | _, _ => false

/-- Invariant relating the backend process handle to the playback state:
a handle exists iff the state is Playing, Paused or Loading (§3). -/
def handleInv (s : SMState) : Prop :=
  s.hasBackendHandle = true ↔
    (s.playback = PlaybackState.Playing ∨ s.playback = PlaybackState.Paused ∨
      s.playback = PlaybackState.Loading)

/-- States reachable from an initial daemon state by repeated event handling. -/
inductive ReachableSM : SMState → Prop
  | init (v : Nat) : ReachableSM (initialSM v)
  | step {s : SMState} (e : Event) : ReachableSM s → ReachableSM (handle s e).1

/-- Playback states observed along a scripted event sequence. -/
def runStates (s : SMState) : List Event → List PlaybackState
  | [] => []
  | e :: rest =>
      let s2 := (handle s e).1
      s2.playback :: runStates s2 rest

/-- Decides whether an event is the shutdown event. -/
def isShutdown : Event → Bool
  | Event.stop => true
  | _ => false

/-- Modelled from the spec: the event multiplexer (§4.4, §5) — dispatches
events one at a time to the state machine, and after observing the shutdown
event applies its final side effects and exits without dispatching further
events.  Returns the final state, the dispatched events in order, and the
accumulated side effects. -/
def runMux : SMState → List Event → SMState × List Event × List Effect
  | s, [] => (s, [], [])
  | s, e :: rest =>
      let step := handle s e
      if isShutdown e then
        (step.1, [e], step.2)
      else
        let r := runMux step.1 rest
        (r.1, e :: r.2.1, step.2 ++ r.2.2)

/-- Preservation: handling any event preserves the backend-handle invariant. -/
theorem handleInv_step (s : SMState) (e : Event) (h : handleInv s) :
    handleInv (handle s e).1 := by
  obtain ⟨pb, tr, v, hb, lp⟩ := s
  cases pb <;> cases e <;> cases lp <;> simp_all [handle, handleInv]

/-- Handling the shutdown event from any state satisfying the invariant
leaves no live backend handle. -/
theorem stop_clears (s : SMState) (h : handleInv s) :
    (handle s Event.stop).1.hasBackendHandle = false := by
  obtain ⟨pb, tr, v, hb, lp⟩ := s
  cases pb <;> simp_all [handle, handleInv]

/-- Handling the shutdown event from a state with a live backend handle
issues the terminate-backend side effect. -/
theorem stop_terminates (s : SMState) (h1 : handleInv s)
    (h2 : s.hasBackendHandle = true) :
    Effect.terminateBackend ∈ (handle s Event.stop).2 := by
  obtain ⟨pb, tr, v, hb, lp⟩ := s
  cases pb <;> simp_all [handle, handleInv]

/-- Multiplexer run containing a shutdown event: the final state has no live
backend handle, and the dispatched events are exactly those up to and
including the first shutdown event. -/
theorem runMux_shutdown (evs : List Event) :
    ∀ s : SMState, handleInv s → Event.stop ∈ evs →
      (runMux s evs).1.hasBackendHandle = false ∧
        (runMux s evs).2.1 = evs.takeWhile (fun e => !isShutdown e) ++ [Event.stop] := by
  induction evs with
  | nil => intro s _ h2; exact absurd h2 (List.not_mem_nil _)
  | cons e rest ih =>
      intro s h1 h2
      by_cases he : e = Event.stop
      · subst he
        constructor
        · simpa [runMux, isShutdown] using stop_clears s h1
        · simp [runMux, isShutdown]
      · have he2 : isShutdown e = false := by
          cases e <;> simp_all [isShutdown]
        have hmem : Event.stop ∈ rest := by
          rcases List.mem_cons.mp h2 with h | h
          · exact absurd h.symm he
          · exact h
        have ihr := ih (handle s e).1 (handleInv_step s e h1) hmem
        constructor
        · simpa [runMux, he2] using ihr.1
        · simp [runMux, he2, ihr.2]

/-- C2: `handle` is total — every (state, event-kind) pair not listed in the
§4.1 transition table leaves the state unchanged and issues only a log line. -/
theorem unlisted_events_are_noops (s : SMState) (e : Event)
    (h : isListed s.playback e = false) :
    handle s e = (s, [Effect.log "ignoring event: no transition from current state"]) := by
  obtain ⟨pb, tr, v, hb, lp⟩ := s
  cases pb <;> cases e <;> simp_all [handle, isListed]

/-- Witness for C2: "pause" while already Paused is a logged no-op. -/
theorem unlisted_events_are_noops_witness :
    handle
        { playback := PlaybackState.Paused, track := none, volume := 0,
          hasBackendHandle := true, lastPosition := none }
        Event.pause =
      ({ playback := PlaybackState.Paused, track := none, volume := 0,
          hasBackendHandle := true, lastPosition := none },
       [Effect.log "ignoring event: no transition from current state"]) :=
  unlisted_events_are_noops
    { playback := PlaybackState.Paused, track := none, volume := 0,
      hasBackendHandle := true, lastPosition := none }
    Event.pause (by decide)

/-- C3: an unexpected backend exit while Playing or Paused transitions to
Loading with a respawn attempt, never to Stopped. -/
theorem backend_exit_respawns (s : SMState)
    (h : s.playback = PlaybackState.Playing ∨ s.playback = PlaybackState.Paused) :
    (handle s Event.backendExited).1.playback = PlaybackState.Loading ∧
      Effect.respawnBackend ∈ (handle s Event.backendExited).2 ∧
      (handle s Event.backendExited).1.playback ≠ PlaybackState.Stopped := by
  obtain ⟨pb, tr, v, hb, lp⟩ := s
  rcases h with h | h <;> subst h <;> cases lp <;> simp [handle]

/-- Witness for C3 at a concrete Playing state. -/
theorem backend_exit_respawns_witness :
    (handle
        { playback := PlaybackState.Playing, track := some ⟨"s", "a", "b", 180, 1⟩,
          volume := 5, hasBackendHandle := true, lastPosition := some 42 }
        Event.backendExited).1.playback = PlaybackState.Loading ∧
      Effect.respawnBackend ∈
        (handle
          { playback := PlaybackState.Playing, track := some ⟨"s", "a", "b", 180, 1⟩,
            volume := 5, hasBackendHandle := true, lastPosition := some 42 }
          Event.backendExited).2 ∧
      (handle
          { playback := PlaybackState.Playing, track := some ⟨"s", "a", "b", 180, 1⟩,
            volume := 5, hasBackendHandle := true, lastPosition := some 42 }
          Event.backendExited).1.playback ≠ PlaybackState.Stopped :=
  backend_exit_respawns
    { playback := PlaybackState.Playing, track := some ⟨"s", "a", "b", 180, 1⟩,
      volume := 5, hasBackendHandle := true, lastPosition := some 42 }
    (Or.inl rfl)

/-- C5: `handle` is deterministic in (state, event), and the scripted
sequence load, ready, pause, play, next from Stopped reproduces the state
trajectory Loading, Playing, Paused, Playing, Loading for every track and
initial volume. -/
theorem handle_deterministic_and_reproducible :
    (∀ (s1 s2 : SMState) (e1 e2 : Event), s1 = s2 → e1 = e2 →
        handle s1 e1 = handle s2 e2) ∧
      ∀ (t : TrackMetadata) (v : Nat),
        runStates (initialSM v)
            [Event.loadTrack t, Event.backendReady, Event.pause, Event.play,
              Event.nextTrack] =
          [PlaybackState.Loading, PlaybackState.Playing, PlaybackState.Paused,
            PlaybackState.Playing, PlaybackState.Loading] := by
  constructor
  · intro s1 s2 e1 e2 h1 h2
    rw [h1, h2]
  · intro t v
    rfl

/-- Witness for C5 at concrete inputs. -/
theorem handle_deterministic_and_reproducible_witness :
    handle (initialSM 0) Event.pause = handle (initialSM 0) Event.pause ∧
      runStates (initialSM 0)
          [Event.loadTrack ⟨"s", "a", "b", 180, 1⟩, Event.backendReady, Event.pause,
            Event.play, Event.nextTrack] =
        [PlaybackState.Loading, PlaybackState.Playing, PlaybackState.Paused,
          PlaybackState.Playing, PlaybackState.Loading] :=
  ⟨handle_deterministic_and_reproducible.1 (initialSM 0) (initialSM 0)
      Event.pause Event.pause rfl rfl,
    handle_deterministic_and_reproducible.2 ⟨"s", "a", "b", 180, 1⟩ 0⟩

/-- C6: a seek beyond the current track's duration is clamped to the track
end and handled in place — same state, a forwarded clamped seek, no error. -/
theorem seek_is_clamped (s : SMState) (t : TrackMetadata) (pos : Nat)
    (h1 : s.playback = PlaybackState.Playing ∨ s.playback = PlaybackState.Paused)
    (h2 : s.track = some t) (h3 : t.duration ≤ pos) :
    handle s (Event.seek pos) = (s, [Effect.forwardSeek t.duration]) := by
  obtain ⟨pb, tr, v, hb, lp⟩ := s
  simp only at h1 h2
  rcases h1 with h | h <;> subst h <;>
    simp [handle, effectiveSeek, h2, min_eq_right h3]

/-- Witness for C6: Seek(9999) on a 180-second track forwards position 180. -/
theorem seek_is_clamped_witness :
    handle
        { playback := PlaybackState.Playing, track := some ⟨"s", "a", "b", 180, 7⟩,
          volume := 0, hasBackendHandle := true, lastPosition := none }
        (Event.seek 9999) =
      ({ playback := PlaybackState.Playing, track := some ⟨"s", "a", "b", 180, 7⟩,
          volume := 0, hasBackendHandle := true, lastPosition := none },
       [Effect.forwardSeek 180]) :=
  seek_is_clamped
    { playback := PlaybackState.Playing, track := some ⟨"s", "a", "b", 180, 7⟩,
      volume := 0, hasBackendHandle := true, lastPosition := none }
    ⟨"s", "a", "b", 180, 7⟩ 9999 (Or.inl rfl) rfl (by decide)

/-- C7: in every reachable state, a backend process handle exists iff the
playback state is Playing, Paused or Loading. -/
theorem backend_handle_iff_active (s : SMState) (h : ReachableSM s) :
    s.hasBackendHandle = true ↔
      (s.playback = PlaybackState.Playing ∨ s.playback = PlaybackState.Paused ∨
        s.playback = PlaybackState.Loading) := by
  induction h with
  | init v => simp [initialSM]
  | step e hs ih => exact handleInv_step _ e ih

/-- Witness for C7 at the initial (reachable) state. -/
theorem backend_handle_iff_active_witness :
    (initialSM 0).hasBackendHandle = true ↔
      ((initialSM 0).playback = PlaybackState.Playing ∨
        (initialSM 0).playback = PlaybackState.Paused ∨
        (initialSM 0).playback = PlaybackState.Loading) :=
  backend_handle_iff_active (initialSM 0) (ReachableSM.init 0)

/-- C4: once the shutdown event is observed the multiplexer dispatches no
further events (the dispatched prefix ends at the first shutdown event), the
final state carries no live backend handle, and handling shutdown in any
invariant-respecting state with a live handle issues terminate-backend. -/
theorem shutdown_no_orphans (s : SMState) (evs : List Event) (s2 : SMState)
    (h1 : handleInv s) (h2 : Event.stop ∈ evs)
    (h3 : handleInv s2) (h4 : s2.hasBackendHandle = true) :
    (runMux s evs).1.hasBackendHandle = false ∧
      (runMux s evs).2.1 = evs.takeWhile (fun e => !isShutdown e) ++ [Event.stop] ∧
      Effect.terminateBackend ∈ (handle s2 Event.stop).2 :=
  ⟨(runMux_shutdown evs s h1 h2).1, (runMux_shutdown evs s h1 h2).2,
    stop_terminates s2 h3 h4⟩

/-- Witness for C4 at a concrete event list and concrete states. -/
theorem shutdown_no_orphans_witness :
    (runMux (initialSM 0) [Event.pause, Event.stop]).1.hasBackendHandle = false ∧
      (runMux (initialSM 0) [Event.pause, Event.stop]).2.1 =
        [Event.pause, Event.stop].takeWhile (fun e => !isShutdown e) ++ [Event.stop] ∧
      Effect.terminateBackend ∈
        (handle
          { playback := PlaybackState.Playing, track := none, volume := 0,
            hasBackendHandle := true, lastPosition := none }
          Event.stop).2 :=
  shutdown_no_orphans (initialSM 0) [Event.pause, Event.stop]
    { playback := PlaybackState.Playing, track := none, volume := 0,
      hasBackendHandle := true, lastPosition := none }
    (by simp [handleInv, initialSM]) (by decide) (by simp [handleInv]) rfl
